import Mathlib

/-!
Shallow embedding of `src/colab/colab_auto_cleanup.py` (the Google Colab
auto-cleanup IPython extension) and proofs about its cleanup hook.

Modelling conventions:
* Python strings are `List Char`; `str.lower()` is an ASCII character map and
  the `in` operator on strings is substring containment (`strContains`).
* The external GPU allocator (CuPy) and the garbage collector are modelled by
  a `GpuEnv` record saying, for one invocation, whether `import cupy`
  succeeds, whether each `free_all_blocks()` call raises, and how many
  objects `gc.collect()` reports.
* Python exceptions are modelled with `Except PyErr`; a `try`/`except` block
  is a `match` on the possibly-raised error.  `print` calls are pure logging
  and are not modelled, except that `auto_cleanup_status` returns the values
  it prints as a `StatusReport`.
* The host notebook runtime's event system is modelled from the spec's
  observer interface (spec sections 6 and 9): a list of subscribed callbacks
  for the `post_run_cell` event, where a callback is identified by the
  identity of the `ColabAutoCleanup` instance owning the bound method
  (distinct instances give distinct callbacks, as the spec's section 9 open
  question notes).  Subscribing is given the semantics most favourable to
  the spec: it is idempotent per callback identity.  Unsubscribing a
  callback that is not subscribed raises (ValueError), matching the host
  behaviour the code's bare `except` in `unload_ipython_extension` guards
  against.
-/

namespace ColabCleanup

/-- Python exception classes relevant to the module: `ImportError` raised by
`import cupy`, `ValueError` raised by the host's unregister for an unknown
callback, and any other `Exception` raised by an allocator call. -/
inductive PyErr
  | importError
  | valueError
  | exception
deriving DecidableEq

/-- Observable external calls made by the cleanup code:
`mempool.free_all_blocks()` (line 38), `pinned_mempool.free_all_blocks()`
(line 43), and `gc.collect()` (line 59). -/
inductive Effect
  | freeAllBlocks
  | freePinnedAllBlocks
  | gcCollect
deriving DecidableEq

/-- Behaviour of the external GPU allocator library (CuPy) and the garbage
collector during one invocation: whether `import cupy` succeeds, whether each
of the two `free_all_blocks()` calls raises, and the object count returned by
`gc.collect()`. -/
structure GpuEnv where
  cupy_available : Bool
  free_raises : Bool
  pinned_free_raises : Bool
  gc_collected : Nat
deriving DecidableEq

/-- The `freed_info` dictionary built by `cleanup_gpu_memory_inline`
(lines 23-27 set the initial values). -/
structure FreedInfo where
  cupy_available : Bool
  memory_freed : Bool
  gc_collected : Nat
deriving DecidableEq

/-- Initial value of `freed_info` (lines 23-27). -/
def initFreedInfo : FreedInfo :=
  { cupy_available := false, memory_freed := false, gc_collected := 0 }

/-- The `try` block of `cleanup_gpu_memory_inline` (lines 29-49): import
cupy (line 30, raises ImportError when the library is absent), record
availability (line 31), free the default memory pool (line 38, may raise),
record the free (line 39), free the pinned pool (line 43, may raise).  The
byte-usage queries (lines 34-35, 45-46) and the verbose print (lines 48-49)
are read-only logging and are not modelled.  Returns the `freed_info` as
mutated so far, the allocator calls made, and the raised exception if any. -/
def cleanupTryBlock (env : GpuEnv) : FreedInfo × List Effect × Option PyErr :=
  if env.cupy_available = false then
    (initFreedInfo, [], some PyErr.importError)
  else if env.free_raises then
    ({ initFreedInfo with cupy_available := true },
      [Effect.freeAllBlocks], some PyErr.exception)
  else if env.pinned_free_raises then
    ({ initFreedInfo with cupy_available := true, memory_freed := true },
      [Effect.freeAllBlocks, Effect.freePinnedAllBlocks], some PyErr.exception)
  else
    ({ initFreedInfo with cupy_available := true, memory_freed := true },
      [Effect.freeAllBlocks, Effect.freePinnedAllBlocks], none)

/-- `cleanup_gpu_memory_inline` (lines 19-65).  The two `except` arms
(`except ImportError`, lines 51-53, and `except Exception`, lines 54-56)
only print, so every exception from the try block is swallowed; then
`gc.collect()` runs unconditionally (lines 58-60) and the function returns
`freed_info` (line 65).  The `verbose` flag only controls prints. -/
def cleanup_gpu_memory_inline (env : GpuEnv) (verbose : Bool) :
    Except PyErr (FreedInfo × List Effect) :=
  match cleanupTryBlock env with
  | (info, calls, some PyErr.importError) =>
      Except.ok ({ info with gc_collected := env.gc_collected },
        calls ++ [Effect.gcCollect])
  | (info, calls, some _) =>
      Except.ok ({ info with gc_collected := env.gc_collected },
        calls ++ [Effect.gcCollect])
  | (info, calls, none) =>
      Except.ok ({ info with gc_collected := env.gc_collected },
        calls ++ [Effect.gcCollect])

/-- The mutable attributes of a `ColabAutoCleanup` instance
(`self.enabled`, `self.verbose`, `self.cleanup_count`). -/
structure CleanupState where
  enabled : Bool
  verbose : Bool
  cleanup_count : Nat
deriving DecidableEq

/-- `ColabAutoCleanup.__init__` (lines 74-78). -/
def initState : CleanupState :=
  { enabled := false, verbose := false, cleanup_count := 0 }

/-- The IPython `ExecutionResult` fields the callback reads (line 120):
the two error indicators of the just-executed cell. -/
structure CellResult where
  error_before_exec : Bool
  error_in_exec : Bool
deriving DecidableEq

/-- `ColabAutoCleanup._cleanup_callback` (lines 114-130): return early when
disabled (116-117); skip cleanup when the cell errored (120-123); otherwise
run `cleanup_gpu_memory_inline` and increment `cleanup_count` inside
`try` (126-128), swallowing any exception (`except Exception`, 129-130).
Returns the new state and the external calls made. -/
def cleanup_callback (st : CleanupState) (result : CellResult) (env : GpuEnv) :
    Except PyErr (CleanupState × List Effect) :=
  if !st.enabled then
    Except.ok (st, [])
  else if result.error_before_exec || result.error_in_exec then
    Except.ok (st, [])
  else
    match cleanup_gpu_memory_inline env st.verbose with
    | Except.ok (_, effs) =>
        Except.ok ({ st with cleanup_count := st.cleanup_count + 1 }, effs)
    | Except.error _ =>
        Except.ok (st, [])

/-- Modelled from the spec: the host event system (spec sections 6 and 9),
an observer list of callbacks subscribed to the `post_run_cell` event.
Each callback is identified by the id of the owning magics instance. -/
structure Host where
  post_run_cell : List Nat
deriving DecidableEq

/-- Modelled from the spec: `events.register` subscribes a callback; it is
given the semantics most favourable to the non-duplication property,
namely idempotence per callback identity. -/
def Host.register (h : Host) (cb : Nat) : Host :=
  if h.post_run_cell.contains cb then h
  else { post_run_cell := h.post_run_cell ++ [cb] }

/-- Modelled from the spec: `events.unregister` removes a subscribed
callback, comparing callback identity; it raises ValueError when the
callback is not subscribed. -/
def Host.unregister (h : Host) (cb : Nat) : Except PyErr Host :=
  if h.post_run_cell.contains cb then
    Except.ok { post_run_cell := h.post_run_cell.erase cb }
  else
    Except.error PyErr.valueError

/-- One `ColabAutoCleanup` instance: its Python object identity (two
instances created by separate constructor calls have distinct ids, so their
bound `_cleanup_callback` methods compare unequal) and its attributes. -/
structure MagicsInst where
  id : Nat
  state : CleanupState
deriving DecidableEq

/-- `str.lower()` on the magic's argument line (ASCII). -/
def pyLower (line : List Char) : List Char := line.map Char.toLower

/-- Python's `needle in hay` on strings: substring containment. -/
def strContains : List Char → List Char → Bool
  | [], needle => needle.isEmpty
  | a :: tl, needle => needle.isPrefixOf (a :: tl) || strContains tl needle

/-- The token tested for by `auto_cleanup_on` (line 83). -/
def verboseToken : List Char := "verbose".data

/-- `ColabAutoCleanup.auto_cleanup_on` (lines 80-92): set
`self.verbose = 'verbose' in line.lower()` (83), set `self.enabled = True`
(84), and register the callback with the host (87-88).  The two prints
(90-92) are not modelled. -/
def auto_cleanup_on (m : MagicsInst) (line : List Char) (h : Host) :
    MagicsInst × Host :=
  let st := { m.state with verbose := strContains (pyLower line) verboseToken,
                           enabled := true }
  ({ m with state := st }, h.register m.id)

/-- `ColabAutoCleanup.auto_cleanup_off` (lines 94-103): set
`self.enabled = False` (97), then unregister the callback (100-101); the
unregister call is not wrapped in try/except here, so its ValueError would
propagate, which the Except in the second component records.  The print
(103) is not modelled. -/
def auto_cleanup_off (m : MagicsInst) (h : Host) :
    MagicsInst × Except PyErr Host :=
  ({ m with state := { m.state with enabled := false } }, h.unregister m.id)

/-- The three values printed by `auto_cleanup_status` (lines 108-112). -/
structure StatusReport where
  status : String
  mode : String
  count : Nat
deriving DecidableEq

/-- `ColabAutoCleanup.auto_cleanup_status` (lines 105-112): compute and
print the status line, the mode and the cleanup count; nothing is
assigned, so the instance and the host are returned unchanged. -/
def auto_cleanup_status (m : MagicsInst) (h : Host) :
    MagicsInst × Host × StatusReport :=
  (m, h,
    { status := if m.state.enabled then "Enabled" else "Disabled",
      mode := if m.state.verbose then "verbose" else "silent",
      count := m.state.cleanup_count })

/-- The whole extension system: the host's subscription list, a counter
supplying fresh object identities, the magics instance that
`register_magics` created (the target of the `%auto_cleanup_*` commands),
and the module-level instance created inside `load_ipython_extension`. -/
structure IPythonSys where
  host : Host
  nextId : Nat
  commandTarget : Option MagicsInst
  loadInst : Option MagicsInst
deriving DecidableEq

/-- The system before the extension is loaded: no subscriptions, no
instances. -/
def sysInit : IPythonSys :=
  { host := { post_run_cell := [] }, nextId := 0,
    commandTarget := none, loadInst := none }

/-- `load_ipython_extension` (lines 133-149):
`ipython.register_magics(ColabAutoCleanup)` (line 141) instantiates the
class once with `__init__` defaults and makes that instance the target of
the `%`-commands; then `magics = ColabAutoCleanup(ipython)` (line 144)
creates a second, distinct instance, sets its `enabled = True` and
`verbose = False` (145-146), and registers that second instance's
`_cleanup_callback` with the host (line 149).  The banner prints (151-161)
are not modelled. -/
def load_ipython_extension (sys : IPythonSys) : IPythonSys :=
  let a : MagicsInst := { id := sys.nextId, state := initState }
  let b : MagicsInst :=
    { id := sys.nextId + 1,
      state := { initState with enabled := true, verbose := false } }
  { host := sys.host.register b.id,
    nextId := sys.nextId + 2,
    commandTarget := some a,
    loadInst := some b }

/-- `unload_ipython_extension` (lines 164-174): inside a bare
`try`/`except: pass`, construct a fresh instance
`magics = ColabAutoCleanup(ipython)` (line 170) and unregister its
`_cleanup_callback` (line 171); since the fresh instance's bound method is
a new identity, the host's ValueError is swallowed by the bare except. -/
def unload_ipython_extension (sys : IPythonSys) : IPythonSys :=
  let c : MagicsInst := { id := sys.nextId, state := initState }
  match sys.host.unregister c.id with
  | Except.ok h => { sys with host := h, nextId := sys.nextId + 1 }
  | Except.error _ => { sys with nextId := sys.nextId + 1 }

/-- The system right after `%load_ext colab_auto_cleanup`. -/
def sysLoaded : IPythonSys := load_ipython_extension sysInit

/-- The command-target instance created by `register_magics` at load. -/
def aInst : MagicsInst := { id := 0, state := initState }

/-- The module-level instance created inside `load_ipython_extension`,
whose callback is the one registered with the host. -/
def bInst : MagicsInst :=
  { id := 1, state := { enabled := true, verbose := false, cleanup_count := 0 } }

/-- An enabled, silent instance state with five past cleanups, used as a
concrete witness input. -/
def stEnabledEx : CleanupState :=
  { enabled := true, verbose := false, cleanup_count := 5 }

/-- A disabled instance state with seven past cleanups, used as a concrete
witness input. -/
def stDisabledEx : CleanupState :=
  { enabled := false, verbose := true, cleanup_count := 7 }

/-- A cell outcome that errored during execution. -/
def errResultEx : CellResult :=
  { error_before_exec := false, error_in_exec := true }

/-- A clean cell outcome. -/
def cleanResultEx : CellResult :=
  { error_before_exec := false, error_in_exec := false }

/-- An environment where CuPy is present and nothing raises. -/
def envAllOk : GpuEnv :=
  { cupy_available := true, free_raises := false, pinned_free_raises := false,
    gc_collected := 3 }

/-- An environment where `import cupy` fails. -/
def envNoCupy : GpuEnv :=
  { cupy_available := false, free_raises := false, pinned_free_raises := false,
    gc_collected := 0 }

/-- The state `stEnabledEx` after one successful cleanup. -/
def stEx6 : CleanupState :=
  { enabled := true, verbose := false, cleanup_count := 6 }

/-- A concrete magics instance wrapping `stEnabledEx`. -/
def mEx : MagicsInst := { id := 0, state := stEnabledEx }

/-- A host with no subscriptions, used as a concrete witness input. -/
def hostEx : Host := { post_run_cell := [] }

/-! ## Helper lemmas -/

/-- `strContains` decides substring containment: Python's
`needle in hay` holds exactly when `needle` is a contiguous infix of
`hay`. -/
theorem strContains_iff_infix (hay needle : List Char) :
    strContains hay needle = true ↔ needle <:+: hay := by
  induction hay with
  | nil => simp [strContains]
  | cons a tl ih => simp [strContains, ih, List.infix_cons_iff]

/-- `cleanup_gpu_memory_inline` returns normally on every environment (both
except arms swallow the exception) and its call trace always ends with the
unconditional `gc.collect()`. -/
theorem cleanup_inline_ok_gc (env : GpuEnv) (verbose : Bool) :
    ∃ info calls,
      cleanup_gpu_memory_inline env verbose = Except.ok (info, calls)
        ∧ Effect.gcCollect ∈ calls := by
  unfold cleanup_gpu_memory_inline
  split
  all_goals exact ⟨_, _, rfl, by simp⟩

/-- Every run of the callback either leaves the state untouched with no
external calls, or increments `cleanup_count` by exactly one. -/
theorem cleanup_callback_cases (st : CleanupState) (result : CellResult)
    (env : GpuEnv) :
    cleanup_callback st result env = Except.ok (st, [])
  ∨ ∃ effs, cleanup_callback st result env
      = Except.ok ({ st with cleanup_count := st.cleanup_count + 1 }, effs) := by
  cases hE : st.enabled with
  | false => exact Or.inl (by simp [cleanup_callback, hE])
  | true =>
    cases hB : (result.error_before_exec || result.error_in_exec) with
    | true => exact Or.inl (by simp [cleanup_callback, hE, hB])
    | false =>
      obtain ⟨info, calls, hok, _⟩ := cleanup_inline_ok_gc env st.verbose
      exact Or.inr ⟨calls, by simp [cleanup_callback, hE, hB, hok]⟩

/-! ## Claim theorems -/

/-- Claim C1 (code_bug counterexample): after extension load the module-level
instance's callback is already subscribed; running the enable command then
subscribes the command-target instance's distinct callback as well, so the
host holds two cleanup subscriptions, contradicting the claimed invariant
that the subscription count is always 0 or 1. -/
theorem claim1_duplicate_subscription :
    sysLoaded.commandTarget = some aInst
  ∧ sysLoaded.host.post_run_cell = [bInst.id]
  ∧ (auto_cleanup_on aInst [] sysLoaded.host).2.post_run_cell
      = [bInst.id, aInst.id]
  ∧ (auto_cleanup_on aInst [] sysLoaded.host).2.post_run_cell.length = 2 :=
  ⟨rfl, rfl, rfl, rfl⟩

/-- Claim C2: when the cell outcome has an error flag set, the callback
returns the state unchanged (no increment of `cleanup_count`) and makes no
external call at all, in particular no allocator call. -/
theorem claim2_errored_skips (st : CleanupState) (result : CellResult)
    (env : GpuEnv)
    (h : (result.error_before_exec || result.error_in_exec) = true) :
    cleanup_callback st result env = Except.ok (st, []) := by
  cases hE : st.enabled with
  | false => simp [cleanup_callback, hE]
  | true => simp [cleanup_callback, hE, h]

/-- Witness for claim C2 at a concrete errored outcome. -/
theorem claim2_witness :
    (errResultEx.error_before_exec || errResultEx.error_in_exec) = true
  ∧ cleanup_callback stEnabledEx errResultEx envAllOk
      = Except.ok (stEnabledEx, []) :=
  ⟨rfl, claim2_errored_skips stEnabledEx errResultEx envAllOk rfl⟩

/-- Claim C3: on a clean outcome while enabled, the callback increments
`cleanup_count` by exactly one for every allocator environment (CuPy absent,
a free call raising, or everything succeeding), and the garbage-collection
pass is always among the calls made. -/
theorem claim3_clean_increments (st : CleanupState) (result : CellResult)
    (env : GpuEnv) (hEn : st.enabled = true)
    (hB : result.error_before_exec = false)
    (hI : result.error_in_exec = false) :
    ∃ effs,
      cleanup_callback st result env
        = Except.ok ({ st with cleanup_count := st.cleanup_count + 1 }, effs)
      ∧ Effect.gcCollect ∈ effs := by
  obtain ⟨info, calls, hok, hmem⟩ := cleanup_inline_ok_gc env st.verbose
  refine ⟨calls, ?_, hmem⟩
  simp [cleanup_callback, hEn, hB, hI, hok]

/-- Witness for claim C3 at a concrete clean outcome with CuPy absent. -/
theorem claim3_witness :
    stEnabledEx.enabled = true
  ∧ cleanResultEx.error_before_exec = false
  ∧ cleanResultEx.error_in_exec = false
  ∧ ∃ effs,
      cleanup_callback stEnabledEx cleanResultEx envNoCupy
        = Except.ok
            ({ stEnabledEx with
                cleanup_count := stEnabledEx.cleanup_count + 1 }, effs)
      ∧ Effect.gcCollect ∈ effs :=
  ⟨rfl, rfl, rfl,
    claim3_clean_increments stEnabledEx cleanResultEx envNoCupy rfl rfl rfl⟩

/-- Claim C4: while the enabled flag is false the callback is a no-op on the
state, so `cleanup_count` keeps its previous value. -/
theorem claim4_disabled_frame (st : CleanupState) (result : CellResult)
    (env : GpuEnv) (h : st.enabled = false) :
    cleanup_callback st result env = Except.ok (st, []) := by
  simp [cleanup_callback, h]

/-- Witness for claim C4 at a concrete disabled state with a prior count. -/
theorem claim4_witness :
    stDisabledEx.enabled = false
  ∧ cleanup_callback stDisabledEx cleanResultEx envAllOk
      = Except.ok (stDisabledEx, []) :=
  ⟨rfl, claim4_disabled_frame stDisabledEx cleanResultEx envAllOk rfl⟩

/-- Claim C5: for every state, cell outcome and allocator environment the
callback returns normally; no exception escapes to the host. -/
theorem claim5_no_propagation (st : CleanupState) (result : CellResult)
    (env : GpuEnv) :
    ∃ out, cleanup_callback st result env = Except.ok out := by
  rcases cleanup_callback_cases st result env with h | ⟨effs, h⟩
  · exact ⟨_, h⟩
  · exact ⟨_, h⟩

/-- Claim C6 (code_bug counterexample): after load the module-level
instance's callback (identity 1) is subscribed; unload constructs a fresh
instance (identity 2) and tries to unregister that fresh callback, the host
raises, the bare except swallows it, and the load-time callback is still
subscribed afterwards. -/
theorem claim6_unload_leaves_subscription :
    sysLoaded.loadInst = some bInst
  ∧ sysLoaded.host.post_run_cell = [bInst.id]
  ∧ (unload_ipython_extension sysLoaded).host.post_run_cell = [bInst.id] :=
  ⟨rfl, rfl, rfl⟩

/-- Claim C7 (code_bug counterexample): after load the command surface is
backed by the instance `register_magics` created, which keeps the
constructor default `enabled = false`, so `status` reports Disabled with
count 0, while the separately created module-level instance — the one whose
callback is actually subscribed — has `enabled = true`.  The two instances
are distinct, so there is no single shared CleanupState that is Enabled. -/
theorem claim7_two_states_status_disabled :
    sysLoaded.commandTarget = some aInst
  ∧ aInst.state.enabled = false
  ∧ (auto_cleanup_status aInst sysLoaded.host).2.2.status = "Disabled"
  ∧ (auto_cleanup_status aInst sysLoaded.host).2.2.count = 0
  ∧ sysLoaded.loadInst = some bInst
  ∧ bInst.state.enabled = true
  ∧ sysLoaded.host.post_run_cell = [bInst.id]
  ∧ bInst.id ≠ aInst.id :=
  ⟨rfl, rfl, rfl, rfl, rfl, rfl, rfl, by decide⟩

/-- Claim C8: `status` returns the instance and the host unchanged, and the
report it prints carries exactly the enabled flag, the verbose flag and
`cleanup_count` of the state. -/
theorem claim8_status_read_only (m : MagicsInst) (h : Host) :
    (auto_cleanup_status m h).1 = m
  ∧ (auto_cleanup_status m h).2.1 = h
  ∧ ((auto_cleanup_status m h).2.2.status = "Enabled" ↔ m.state.enabled = true)
  ∧ ((auto_cleanup_status m h).2.2.mode = "verbose" ↔ m.state.verbose = true)
  ∧ (auto_cleanup_status m h).2.2.count = m.state.cleanup_count := by
  refine ⟨rfl, rfl, ?_, ?_, rfl⟩
  · cases hE : m.state.enabled <;> simp [auto_cleanup_status, hE]
  · cases hV : m.state.verbose <;> simp [auto_cleanup_status, hV]

/-- Claim C9: the enable command sets the verbose flag to true exactly when
the lowercased argument line contains the substring of `verboseToken`
("verbose"); since the new flag does not depend on the previous one,
re-running enable without the token resets verbose to false. -/
theorem claim9_verbose_iff_token (m : MagicsInst) (line : List Char)
    (h : Host) :
    (auto_cleanup_on m line h).1.state.verbose = true ↔
      verboseToken <:+: pyLower line := by
  have hs := strContains_iff_infix (pyLower line) verboseToken
  simpa [auto_cleanup_on] using hs

/-- Claim C10: none of the operations decreases `cleanup_count`: enable,
disable and status leave it unchanged, and the callback either leaves it
unchanged or increments it by exactly one, so it never decreases. -/
theorem claim10_count_monotone (m : MagicsInst) (line : List Char) (h : Host)
    (result : CellResult) (env : GpuEnv) :
    (auto_cleanup_on m line h).1.state.cleanup_count = m.state.cleanup_count
  ∧ (auto_cleanup_off m h).1.state.cleanup_count = m.state.cleanup_count
  ∧ (auto_cleanup_status m h).1.state.cleanup_count = m.state.cleanup_count
  ∧ ∀ st2 effs,
      cleanup_callback m.state result env = Except.ok (st2, effs) →
        (st2.cleanup_count = m.state.cleanup_count
          ∨ st2.cleanup_count = m.state.cleanup_count + 1)
        ∧ m.state.cleanup_count ≤ st2.cleanup_count := by
  refine ⟨rfl, rfl, rfl, ?_⟩
  intro st2 effs hok
  rcases cleanup_callback_cases m.state result env with h2 | ⟨effs2, h2⟩
  · have heq := h2.symm.trans hok
    simp only [Except.ok.injEq, Prod.mk.injEq] at heq
    rw [← heq.1]
    exact ⟨Or.inl rfl, Nat.le_refl _⟩
  · have heq := h2.symm.trans hok
    simp only [Except.ok.injEq, Prod.mk.injEq] at heq
    rw [← heq.1]
    exact ⟨Or.inr rfl, Nat.le_succ _⟩

/-- Witness for claim C10 at a concrete enabled state and clean outcome. -/
theorem claim10_witness :
    cleanup_callback stEnabledEx cleanResultEx envAllOk
      = Except.ok (stEx6,
          [Effect.freeAllBlocks, Effect.freePinnedAllBlocks, Effect.gcCollect])
  ∧ (stEx6.cleanup_count = stEnabledEx.cleanup_count
      ∨ stEx6.cleanup_count = stEnabledEx.cleanup_count + 1)
  ∧ stEnabledEx.cleanup_count ≤ stEx6.cleanup_count := by
  have hmono :=
    (claim10_count_monotone mEx [] hostEx cleanResultEx envAllOk).2.2.2
  have hok : cleanup_callback stEnabledEx cleanResultEx envAllOk
      = Except.ok (stEx6,
          [Effect.freeAllBlocks, Effect.freePinnedAllBlocks,
            Effect.gcCollect]) := rfl
  have h2 := hmono stEx6
    [Effect.freeAllBlocks, Effect.freePinnedAllBlocks, Effect.gcCollect] hok
  exact ⟨hok, h2.1, h2.2⟩

end ColabCleanup
